import Mathlib

/-!
Verification development for the Finance-Website repository.

The repository consists of server-side action handlers (TypeScript) that
orchestrate calls to external services: a bank-data aggregator (Plaid), a
payment network (Dwolla) and a document database (Appwrite).  We give a
shallow embedding: every external call is an oracle field of an `Env`
record (a `none` outcome models a thrown/caught error or an `undefined`
return), the persistent state visible to this code (the bank-link
collection, the set of provisioned funding sources, the cache-invalidation
flag) is an explicit `World` threaded through the functions, and each
TypeScript function becomes a total Lean function returning `Option`
(`none` models the `null`/`undefined` failure signal the code returns from
its catch blocks).

`parseStringify` in the source is a JSON round-trip (`JSON.parse(JSON.stringify x)`)
and is modelled as the identity.
-/

/-- One account entry as returned by the aggregator accountsGet call
(fields used by the code: `account_id`, `name`). -/
structure PlaidAccount where
  account_id : String
  name : String
deriving DecidableEq, Repr

/-- A persisted bank-link document, with exactly the fields written by
`createBankAccount` in `user.actions`: `{userId, bankId, accountId,
accessToken, fundingSourceUrl, shareableId}`. -/
structure BankLink where
  userId : String
  bankId : String
  accountId : String
  accessToken : String
  fundingSourceUrl : String
  shareableId : String
deriving DecidableEq, Repr

/-- A user document in the user collection (field used by the queries:
`userId`; `docId` stands for the Appwrite document id). -/
structure UserDoc where
  docId : String
  userId : String
deriving DecidableEq, Repr

/-- The funding-source creation payload built by `addFundingSource` and
posted by `createFundingSource` (`CreateFundingSourceOptions` in
`dwolla.actions.ts`).  `links` is the optional on-demand-authorization
`_links` object; `none` models the `undefined` produced when
`createOnDemandAuthorization` failed. -/
structure CreateFundingSourceOptions where
  customerId : String
  fundingSourceName : String
  plaidToken : String
  links : Option String
deriving DecidableEq, Repr

/-- The transfer request body built by `createTransfer`: two funding-source
hrefs and an amount object `{currency, value}`. -/
structure TransferRequest where
  sourceHref : String
  destinationHref : String
  currency : String
  value : String
deriving DecidableEq, Repr

/-- The state this code can observe or change: the bank-link collection
(the Appwrite bank collection), the funding sources provisioned on the
payment network during this execution, and whether the cached account-list
rendering was invalidated (`revalidatePath`). -/
structure World where
  ledger : List BankLink
  fundingSources : List CreateFundingSourceOptions
  revalidated : Bool
deriving DecidableEq, Repr

/-- Outcomes of the external calls.  Each field gives the result of one
remote call as the code observes it; `none` is a thrown error (caught by
the surrounding try/catch).  For the two Dwolla POSTs that read the
`location` response header, the outcome is `Option (Option String)`:
the outer `Option` is throw-vs-success of the POST, the inner one the
header value (absent header models `headers.get` returning null). -/
structure Env where
  itemPublicTokenExchange : String → Option (String × String)
  accountsGet : String → Option (List PlaidAccount)
  processorTokenCreate : String → String → Option String
  onDemandAuthorization : Option String
  fundingSourcePost : CreateFundingSourceOptions → Option (Option String)
  transferPost : TransferRequest → Option (Option String)
  createDocumentOk : BankLink → Bool

/-- The user record fields read by `exchangePublicToken`. -/
structure UserRec where
  id : String
  dwollaCustomerId : String
deriving DecidableEq, Repr

/-- Parameters of `exchangePublicToken`. -/
structure ExchangePublicTokenProps where
  publicToken : String
  user : UserRec
deriving DecidableEq, Repr

/-- Parameters of `addFundingSource`. -/
structure AddFundingSourceParams where
  dwollaCustomerId : String
  processorToken : String
  bankName : String
deriving DecidableEq, Repr

/-- Parameters of `createTransfer`. -/
structure TransferParams where
  sourceFundingSourceUrl : String
  destinationFundingSourceUrl : String
  amount : String
deriving DecidableEq, Repr

/-- The JavaScript pattern `headers.get("location") || undefined`: a missing
header or an empty-string header becomes the absence signal. -/
def orUndefined : Option String → Option String
  | none => none
  | some s => if s.isEmpty then none else some s

/-- Modelled from the spec: `encryptId` lives in `lib/utils`, which is not
among the supplied source files.  The spec describes it as a reversible,
deterministic, non-cryptographic encoding of the account id.  We model it
as character-list reversal, which is deterministic and reversible via
`decryptId`. -/
def encryptId (s : String) : String := ⟨s.data.reverse⟩

/-- Modelled from the spec: the decoder inverting `encryptId`, so that a
shareable id can be decoded back to the original account id. -/
def decryptId (s : String) : String := ⟨s.data.reverse⟩

/-- `createOnDemandAuthorization` (dwolla.actions.ts): posts to
`on-demand-authorizations` and returns the response `_links`; on error it
logs and returns `undefined` (its catch block has no return value). -/
def createOnDemandAuthorization (env : Env) : Option String :=
  env.onDemandAuthorization

/-- `createFundingSource` (dwolla.actions.ts): posts the funding-source
payload to `customers/{id}/funding-sources` and returns the `location`
header (or `undefined`); on a thrown error it returns `undefined`.  A
successful POST provisions a funding source on the payment network, which
we record in the world even when the location header is unusable. -/
def createFundingSource (env : Env) (options : CreateFundingSourceOptions)
    (w : World) : Option String × World :=
  match env.fundingSourcePost options with
  | none => (none, w)
  | some loc =>
      (orUndefined loc, { w with fundingSources := w.fundingSources ++ [options] })

/-- `addFundingSource` (dwolla.actions.ts): obtains the on-demand
authorization links, builds the funding-source options with those links
embedded (possibly `undefined`), and returns the result of
`createFundingSource`.  Note the code never tests `dwollaAuthLinks`. -/
def addFundingSource (env : Env) (p : AddFundingSourceParams) (w : World) :
    Option String × World :=
  let dwollaAuthLinks := createOnDemandAuthorization env
  let fundingSourceOptions : CreateFundingSourceOptions :=
    { customerId := p.dwollaCustomerId
      fundingSourceName := p.bankName
      plaidToken := p.processorToken
      links := dwollaAuthLinks }
  createFundingSource env fundingSourceOptions w

/-- `createTransfer` (dwolla.actions.ts): builds the request body with the
two given hrefs and the fixed currency "USD", posts it to `transfers`, and
returns the `location` header (or `undefined`); on error returns
`undefined`. -/
def createTransfer (env : Env) (p : TransferParams) : Option String :=
  let requestBody : TransferRequest :=
    { sourceHref := p.sourceFundingSourceUrl
      destinationHref := p.destinationFundingSourceUrl
      currency := "USD"
      value := p.amount }
  match env.transferPost requestBody with
  | none => none
  | some loc => orUndefined loc

/-- `getUserInfo` (user.actions): lists user documents with
`Query.equal(userId)`; returns `null` when the result set is empty or any
error is thrown, otherwise the first matching document.  `dbOk` is whether
the database call succeeds. -/
def getUserInfo (dbOk : Bool) (users : List UserDoc) (userId : String) :
    Option UserDoc :=
  if dbOk then
    match (users.filter fun u => u.userId = userId).head? with
    | none => none
    | some d => some d
  else none

/-- `createBankAccount` (user.actions): creates one document in the bank
collection with fields `{userId, bankId, accountId, accessToken,
fundingSourceUrl, shareableId}` and returns it; on a thrown error it logs
and returns `null` (the document is not created). -/
def createBankAccount (env : Env) (doc : BankLink) (w : World) :
    Option BankLink × World :=
  if env.createDocumentOk doc then
    (some doc, { w with ledger := w.ledger ++ [doc] })
  else (none, w)

/-- The shareableId derivation in `exchangePublicToken`:
`accountData.account_id ? encryptId(accountData.account_id) : null`. -/
def deriveShareableId (accountId : String) : Option String :=
  if accountId = "" then none else some (encryptId accountId)

/-- `exchangePublicToken` (user.actions): the account-linking workflow.
Steps in source order: token exchange, account retrieval with first-entry
selection and the `!accountData || !accountData.account_id` guard,
processor-token creation, funding-source provisioning (aborts when it
returns no URL), shareableId derivation (aborts on `null` or empty),
bank-account persistence (result NOT checked), cache invalidation, and the
`{publicTokenExchange: "complete"}` sentinel.  Any thrown error is caught
and `null` is returned. -/
def exchangePublicToken (env : Env) (p : ExchangePublicTokenProps)
    (w : World) : Option String × World :=
  match env.itemPublicTokenExchange p.publicToken with
  | none => (none, w)
  | some (accessToken, itemId) =>
    match env.accountsGet accessToken with
    | none => (none, w)
    | some accounts =>
      match accounts.head? with
      | none => (none, w)
      | some accountData =>
        if accountData.account_id = "" then (none, w)
        else
          match env.processorTokenCreate accessToken accountData.account_id with
          | none => (none, w)
          | some processorToken =>
            match addFundingSource env
                { dwollaCustomerId := p.user.dwollaCustomerId
                  processorToken := processorToken
                  bankName := accountData.name } w with
            | (none, w1) => (none, w1)
            | (some fundingSourceUrl, w1) =>
              match deriveShareableId accountData.account_id with
              | none => (none, w1)
              | some shareableId =>
                if shareableId = "" then (none, w1)
                else
                  let step := createBankAccount env
                    { userId := p.user.id
                      bankId := itemId
                      accountId := accountData.account_id
                      accessToken := accessToken
                      fundingSourceUrl := fundingSourceUrl
                      shareableId := shareableId } w1
                  (some "complete", { step.2 with revalidated := true })

/-- `getBankByAccountId` (user.actions): lists bank documents with
`Query.equal(accountId)`; returns `null` unless the total of matches is
exactly 1, in which case it returns the first (unique) match; any thrown
error also yields `null`. -/
def getBankByAccountId (dbOk : Bool) (accountId : String) (w : World) :
    Option BankLink :=
  if dbOk then
    let docs := w.ledger.filter fun l => l.accountId = accountId
    if docs.length ≠ 1 then none else docs.head?
  else none

/-- The spec scenario environment: every external call succeeds, with the
values of the §8 scenario (accessToken "acc_1", itemId "item_1", one
account "a1"/"Checking", processor token "proc_1", funding source at
"https://fs1"). -/
def envOk : Env :=
  { itemPublicTokenExchange := fun _ => some ("acc_1", "item_1")
    accountsGet := fun _ => some [{ account_id := "a1", name := "Checking" }]
    processorTokenCreate := fun _ _ => some "proc_1"
    onDemandAuthorization := some "authlink"
    fundingSourcePost := fun _ => some (some "https://fs1")
    transferPost := fun _ => some (some "https://t1")
    createDocumentOk := fun _ => true }

/-- As `envOk` but the bank-collection document write throws. -/
def envDbFail : Env := { envOk with createDocumentOk := fun _ => false }

/-- As `envOk` but the on-demand-authorization POST throws. -/
def envNoAuth : Env := { envOk with onDemandAuthorization := none }

/-- As `envOk` but the funding-source POST throws. -/
def envNoFunding : Env := { envOk with fundingSourcePost := fun _ => none }

/-- As `envOk` but the public-token exchange throws (consumed token). -/
def envExchangeFail : Env := { envOk with itemPublicTokenExchange := fun _ => none }

/-- As `envOk` but account retrieval returns an empty list. -/
def envNoAccounts : Env := { envOk with accountsGet := fun _ => some [] }

/-- The empty initial world. -/
def w0 : World := { ledger := [], fundingSources := [], revalidated := false }

/-- Concrete linking parameters. -/
def pEx : ExchangePublicTokenProps :=
  { publicToken := "tok_valid", user := { id := "u1", dwollaCustomerId := "cust_1" } }

/-- Concrete funding-source parameters. -/
def afsEx : AddFundingSourceParams :=
  { dwollaCustomerId := "cust_1", processorToken := "proc_1", bankName := "Checking" }

/-- Concrete transfer parameters. -/
def tpEx : TransferParams :=
  { sourceFundingSourceUrl := "https://fsA",
    destinationFundingSourceUrl := "https://fsB", amount := "12.34" }

/-- A concrete bank-link record. -/
def bEx : BankLink :=
  { userId := "u1", bankId := "item_1", accountId := "a1",
    accessToken := "acc_1", fundingSourceUrl := "https://fs1",
    shareableId := "1a" }

/-- A world whose bank collection holds exactly one record, for `bEx`. -/
def wEx : World := { ledger := [bEx], fundingSources := [], revalidated := false }

theorem decryptId_encryptId (s : String) : decryptId (encryptId s) = s := by
  cases s
  simp [encryptId, decryptId]

theorem encryptId_eq_empty_iff (s : String) : encryptId s = "" ↔ s = "" := by
  cases s with
  | mk data =>
    constructor
    · intro h
      have hd := congrArg String.data h
      simp [encryptId] at hd
      simp [hd]
    · intro h
      have hd := congrArg String.data h
      simp at hd
      simp [encryptId, hd]

/-- Shape of any run of `exchangePublicToken` in which every external step
through funding-source provisioning succeeds: the success sentinel is
returned, the cache is invalidated, the funding source is provisioned, and
the bank-link record is appended exactly when the document write succeeds. -/
theorem exchangePublicToken_shape (env : Env) (p : ExchangePublicTokenProps)
    (w : World) (accessToken itemId : String) (accounts : List PlaidAccount)
    (accountData : PlaidAccount) (processorToken url : String)
    (h1 : env.itemPublicTokenExchange p.publicToken = some (accessToken, itemId))
    (h2 : env.accountsGet accessToken = some accounts)
    (h3 : accounts.head? = some accountData)
    (h4 : accountData.account_id ≠ "")
    (h5 : env.processorTokenCreate accessToken accountData.account_id =
      some processorToken)
    (h6 : env.fundingSourcePost
        { customerId := p.user.dwollaCustomerId
          fundingSourceName := accountData.name
          plaidToken := processorToken
          links := env.onDemandAuthorization } = some (some url))
    (h7 : url ≠ "") :
    exchangePublicToken env p w =
      (some "complete",
        { ledger :=
            if env.createDocumentOk
                { userId := p.user.id, bankId := itemId,
                  accountId := accountData.account_id,
                  accessToken := accessToken, fundingSourceUrl := url,
                  shareableId := encryptId accountData.account_id }
            then w.ledger ++
                [{ userId := p.user.id, bankId := itemId,
                   accountId := accountData.account_id,
                   accessToken := accessToken, fundingSourceUrl := url,
                   shareableId := encryptId accountData.account_id }]
            else w.ledger,
          fundingSources := w.fundingSources ++
            [{ customerId := p.user.dwollaCustomerId,
               fundingSourceName := accountData.name,
               plaidToken := processorToken,
               links := env.onDemandAuthorization }],
          revalidated := true }) := by
  have h8 : encryptId accountData.account_id ≠ "" := by
    simp [ne_eq, encryptId_eq_empty_iff]
    exact h4
  have h9 : url.isEmpty = false := by
    simp [String.isEmpty_iff, Bool.eq_false_iff]
    exact h7
  cases hok : env.createDocumentOk
      { userId := p.user.id, bankId := itemId, accountId := accountData.account_id,
        accessToken := accessToken, fundingSourceUrl := url,
        shareableId := encryptId accountData.account_id } <;>
  simp [exchangePublicToken, addFundingSource, createOnDemandAuthorization,
    createFundingSource, deriveShareableId, createBankAccount, orUndefined,
    h1, h2, h3, h5, h6, h9, h4, h8, hok]

theorem createFundingSource_ledger (env : Env) (o : CreateFundingSourceOptions)
    (w : World) : (createFundingSource env o w).2.ledger = w.ledger := by
  unfold createFundingSource
  cases env.fundingSourcePost o <;> rfl

theorem addFundingSource_ledger (env : Env) (a : AddFundingSourceParams)
    (w : World) : (addFundingSource env a w).2.ledger = w.ledger := by
  unfold addFundingSource
  exact createFundingSource_ledger env _ w

/-- C1 counterexample: a run in which the (publicToken, user) pair is
valid, every external step succeeds, but the document write throws:
`exchangePublicToken` still returns its success sentinel while zero new
BankLink records exist, so a successful call does NOT always create
exactly one new BankLink. -/
theorem c1_counterexample :
    (exchangePublicToken envDbFail pEx w0).1 = some "complete" ∧
    (exchangePublicToken envDbFail pEx w0).2.ledger = [] := by
  decide

/-- C1 (amended): for every environment and input in which all external
steps succeed AND the persistence write commits, `exchangePublicToken`
succeeds and appends exactly one new BankLink, with fields `{userId,
bankId = itemId, accountId, accessToken, fundingSourceUrl, shareableId}`,
and the shareableId decodes back to the selected account id. -/
theorem c1_link_success_unique_record (env : Env) (p : ExchangePublicTokenProps)
    (w : World) (accessToken itemId : String) (accounts : List PlaidAccount)
    (accountData : PlaidAccount) (processorToken url : String)
    (h1 : env.itemPublicTokenExchange p.publicToken = some (accessToken, itemId))
    (h2 : env.accountsGet accessToken = some accounts)
    (h3 : accounts.head? = some accountData)
    (h4 : accountData.account_id ≠ "")
    (h5 : env.processorTokenCreate accessToken accountData.account_id =
      some processorToken)
    (h6 : env.fundingSourcePost
        { customerId := p.user.dwollaCustomerId
          fundingSourceName := accountData.name
          plaidToken := processorToken
          links := env.onDemandAuthorization } = some (some url))
    (h7 : url ≠ "")
    (h8 : env.createDocumentOk
        { userId := p.user.id, bankId := itemId,
          accountId := accountData.account_id,
          accessToken := accessToken, fundingSourceUrl := url,
          shareableId := encryptId accountData.account_id } = true) :
    (exchangePublicToken env p w).1 = some "complete" ∧
    (exchangePublicToken env p w).2.ledger =
      w.ledger ++
        [{ userId := p.user.id, bankId := itemId,
           accountId := accountData.account_id, accessToken := accessToken,
           fundingSourceUrl := url,
           shareableId := encryptId accountData.account_id }] ∧
    decryptId (encryptId accountData.account_id) = accountData.account_id := by
  rw [exchangePublicToken_shape env p w accessToken itemId accounts accountData
    processorToken url h1 h2 h3 h4 h5 h6 h7]
  simp [h8, decryptId_encryptId]

/-- C1 witness: the amended theorem applied to the spec scenario. -/
theorem c1_witness :
    (exchangePublicToken envOk pEx w0).1 = some "complete" ∧
    (exchangePublicToken envOk pEx w0).2.ledger =
      w0.ledger ++
        [{ userId := "u1", bankId := "item_1", accountId := "a1",
           accessToken := "acc_1", fundingSourceUrl := "https://fs1",
           shareableId := encryptId "a1" }] ∧
    decryptId (encryptId "a1") = "a1" :=
  c1_link_success_unique_record envOk pEx w0 "acc_1" "item_1"
    [{ account_id := "a1", name := "Checking" }]
    { account_id := "a1", name := "Checking" } "proc_1" "https://fs1"
    rfl rfl rfl (by decide) rfl rfl (by decide) rfl

/-- C2 counterexample: with every external step succeeding but the
document write throwing, `exchangePublicToken` still reaches the
cache-invalidation step and returns the completion sentinel although no
BankLink write committed: success is NOT gated on the persistence step. -/
theorem c2_counterexample :
    (exchangePublicToken envDbFail pEx w0).1 = some "complete" ∧
    (exchangePublicToken envDbFail pEx w0).2.revalidated = true ∧
    (exchangePublicToken envDbFail pEx w0).2.ledger = [] := by
  decide

/-- C2 (amended): once all steps through shareableId derivation succeed,
`exchangePublicToken` invalidates the cache and returns the completion
sentinel regardless of the persistence outcome: `createBankAccount`
swallows its own failure (returning null, which the caller never checks),
so a persistence failure only results in no record being appended. -/
theorem c2_success_not_gated_on_persistence (env : Env)
    (p : ExchangePublicTokenProps) (w : World) (accessToken itemId : String)
    (accounts : List PlaidAccount) (accountData : PlaidAccount)
    (processorToken url : String)
    (h1 : env.itemPublicTokenExchange p.publicToken = some (accessToken, itemId))
    (h2 : env.accountsGet accessToken = some accounts)
    (h3 : accounts.head? = some accountData)
    (h4 : accountData.account_id ≠ "")
    (h5 : env.processorTokenCreate accessToken accountData.account_id =
      some processorToken)
    (h6 : env.fundingSourcePost
        { customerId := p.user.dwollaCustomerId
          fundingSourceName := accountData.name
          plaidToken := processorToken
          links := env.onDemandAuthorization } = some (some url))
    (h7 : url ≠ "") :
    (exchangePublicToken env p w).1 = some "complete" ∧
    (exchangePublicToken env p w).2.revalidated = true ∧
    (exchangePublicToken env p w).2.ledger =
      (if env.createDocumentOk
          { userId := p.user.id, bankId := itemId,
            accountId := accountData.account_id,
            accessToken := accessToken, fundingSourceUrl := url,
            shareableId := encryptId accountData.account_id }
        then w.ledger ++
          [{ userId := p.user.id, bankId := itemId,
             accountId := accountData.account_id, accessToken := accessToken,
             fundingSourceUrl := url,
             shareableId := encryptId accountData.account_id }]
        else w.ledger) := by
  rw [exchangePublicToken_shape env p w accessToken itemId accounts accountData
    processorToken url h1 h2 h3 h4 h5 h6 h7]
  simp

/-- C2 witness: the amended theorem applied to the run whose document
write throws. -/
theorem c2_witness :
    (exchangePublicToken envDbFail pEx w0).1 = some "complete" ∧
    (exchangePublicToken envDbFail pEx w0).2.revalidated = true ∧
    (exchangePublicToken envDbFail pEx w0).2.ledger =
      (if envDbFail.createDocumentOk
          { userId := "u1", bankId := "item_1", accountId := "a1",
            accessToken := "acc_1", fundingSourceUrl := "https://fs1",
            shareableId := encryptId "a1" }
        then w0.ledger ++
          [{ userId := "u1", bankId := "item_1", accountId := "a1",
             accessToken := "acc_1", fundingSourceUrl := "https://fs1",
             shareableId := encryptId "a1" }]
        else w0.ledger) :=
  c2_success_not_gated_on_persistence envDbFail pEx w0 "acc_1" "item_1"
    [{ account_id := "a1", name := "Checking" }]
    { account_id := "a1", name := "Checking" } "proc_1" "https://fs1"
    rfl rfl rfl (by decide) rfl rfl (by decide)

/-- C3 counterexample: a run in which the on-demand-authorization sub-step
fails (createOnDemandAuthorization returns the absence signal) yet
`addFundingSource` still returns a funding-source reference, because the
code never checks the authorization result before posting the creation
request: an authorization failure does NOT make the provisioning step
fail. -/
theorem c3_counterexample :
    createOnDemandAuthorization envNoAuth = none ∧
    (addFundingSource envNoAuth afsEx w0).1 = some "https://fs1" := by
  decide

/-- C3 (amended): `addFundingSource` first performs the authorization
sub-step and then always performs the creation sub-step, embedding
whatever the authorization produced (the absence signal when it failed) in
the creation payload; the provisioning step returns the failure signal
exactly when the creation POST throws or yields no usable location, the
authorization outcome itself being unchecked. -/
theorem c3_addFundingSource_structure (env : Env) (p : AddFundingSourceParams)
    (w : World) :
    (addFundingSource env p w).1 =
      Option.bind
        (env.fundingSourcePost
          { customerId := p.dwollaCustomerId
            fundingSourceName := p.bankName
            plaidToken := p.processorToken
            links := createOnDemandAuthorization env })
        orUndefined ∧
    (env.fundingSourcePost
        { customerId := p.dwollaCustomerId
          fundingSourceName := p.bankName
          plaidToken := p.processorToken
          links := createOnDemandAuthorization env } = none →
      (addFundingSource env p w).1 = none) := by
  constructor
  · cases h : env.fundingSourcePost
        { customerId := p.dwollaCustomerId
          fundingSourceName := p.bankName
          plaidToken := p.processorToken
          links := createOnDemandAuthorization env } <;>
    simp [addFundingSource, createFundingSource, h]
  · intro h
    simp [addFundingSource, createFundingSource, h]

/-- C3 witness: with the creation POST throwing, the provisioning step
fails. -/
theorem c3_witness : (addFundingSource envNoFunding afsEx w0).1 = none :=
  (c3_addFundingSource_structure envNoFunding afsEx w0).2 rfl

/-- C4: if the workflow reaches account retrieval and it yields an empty
list (or a first entry whose account id is empty), `exchangePublicToken`
returns the failure signal and the world is unchanged: no funding source
is provisioned and no BankLink is created. -/
theorem c4_no_account_aborts (env : Env) (p : ExchangePublicTokenProps)
    (w : World) (accessToken itemId : String) (accounts : List PlaidAccount)
    (h1 : env.itemPublicTokenExchange p.publicToken = some (accessToken, itemId))
    (h2 : env.accountsGet accessToken = some accounts)
    (h3 : ∀ a ∈ accounts.head?, a.account_id = "") :
    exchangePublicToken env p w = (none, w) := by
  cases hh : accounts.head? with
  | none => simp [exchangePublicToken, h1, h2, hh]
  | some a =>
    have ha : a.account_id = "" := h3 a (by simp [hh])
    simp [exchangePublicToken, h1, h2, hh, ha]

/-- C4 witness: account retrieval returning the empty list aborts the
linking workflow with the world unchanged. -/
theorem c4_witness : exchangePublicToken envNoAccounts pEx w0 = (none, w0) :=
  c4_no_account_aborts envNoAccounts pEx w0 "acc_1" "item_1" [] rfl rfl
    (by simp)

/-- C5: when the database call succeeds, `getBankByAccountId` returns a
record exactly when precisely one BankLink matches the account id, and the
record it returns is that unique match (it never silently picks one of
several); zero or two-or-more matches yield the absence signal, as does a
database failure. -/
theorem c5_getBankByAccountId_unique (dbOk : Bool) (accountId : String)
    (w : World) :
    ((getBankByAccountId dbOk accountId w).isSome ↔
      dbOk = true ∧
        (w.ledger.filter fun l => l.accountId = accountId).length = 1) ∧
    (∀ b, getBankByAccountId dbOk accountId w = some b →
      w.ledger.filter (fun l => l.accountId = accountId) = [b]) := by
  unfold getBankByAccountId
  cases dbOk with
  | false => simp
  | true =>
    by_cases h : (w.ledger.filter fun l => l.accountId = accountId).length = 1
    · obtain ⟨b0, hb0⟩ := List.length_eq_one.mp h
      simp [h, hb0]
    · simp [h]

/-- C5 witness: on a collection holding exactly one matching record, the
record returned is that unique match. -/
theorem c5_witness : wEx.ledger.filter (fun l => l.accountId = "a1") = [bEx] :=
  (c5_getBankByAccountId_unique true "a1" wEx).2 bEx (by decide)

/-- C6: if the workflow reaches funding-source provisioning and
`addFundingSource` yields no funding-source reference, the operation
returns the failure signal and the bank collection is unchanged: no
BankLink record is persisted. -/
theorem c6_funding_failure_no_record (env : Env) (p : ExchangePublicTokenProps)
    (w : World) (accessToken itemId : String) (accounts : List PlaidAccount)
    (accountData : PlaidAccount) (processorToken : String)
    (h1 : env.itemPublicTokenExchange p.publicToken = some (accessToken, itemId))
    (h2 : env.accountsGet accessToken = some accounts)
    (h3 : accounts.head? = some accountData)
    (h4 : accountData.account_id ≠ "")
    (h5 : env.processorTokenCreate accessToken accountData.account_id =
      some processorToken)
    (h6 : (addFundingSource env
        { dwollaCustomerId := p.user.dwollaCustomerId
          processorToken := processorToken
          bankName := accountData.name } w).1 = none) :
    (exchangePublicToken env p w).1 = none ∧
    (exchangePublicToken env p w).2.ledger = w.ledger := by
  have hled := addFundingSource_ledger env
    { dwollaCustomerId := p.user.dwollaCustomerId
      processorToken := processorToken
      bankName := accountData.name } w
  rcases haf : addFundingSource env
      { dwollaCustomerId := p.user.dwollaCustomerId
        processorToken := processorToken
        bankName := accountData.name } w with ⟨r, w1⟩
  rw [haf] at h6 hled
  simp at h6 hled
  subst h6
  simp [exchangePublicToken, h1, h2, h3, h4, h5, haf, hled]

/-- C6 witness: with the funding-source POST throwing, the linking
workflow fails and persists nothing. -/
theorem c6_witness :
    (exchangePublicToken envNoFunding pEx w0).1 = none ∧
    (exchangePublicToken envNoFunding pEx w0).2.ledger = w0.ledger :=
  c6_funding_failure_no_record envNoFunding pEx w0 "acc_1" "item_1"
    [{ account_id := "a1", name := "Checking" }]
    { account_id := "a1", name := "Checking" } "proc_1"
    rfl rfl rfl (by decide) rfl rfl

/-- C7: `createTransfer` submits a request whose source and destination
links are exactly the two given funding-source references and whose amount
carries the fixed currency code "USD" with the given value; a successful
POST yields the new transfer reference (its location), a thrown POST
yields the absence signal. -/
theorem c7_createTransfer_request (env : Env) (p : TransferParams) :
    (env.transferPost
        { sourceHref := p.sourceFundingSourceUrl
          destinationHref := p.destinationFundingSourceUrl
          currency := "USD"
          value := p.amount } = none →
      createTransfer env p = none) ∧
    (∀ url, url ≠ "" →
      env.transferPost
        { sourceHref := p.sourceFundingSourceUrl
          destinationHref := p.destinationFundingSourceUrl
          currency := "USD"
          value := p.amount } = some (some url) →
      createTransfer env p = some url) := by
  constructor
  · intro h
    simp [createTransfer, h]
  · intro url hu h
    have hue : url.isEmpty = false := by
      simp [String.isEmpty_iff, Bool.eq_false_iff]
      exact hu
    simp [createTransfer, h, orUndefined, hue]

/-- C7 witness: the transfer request built from concrete references is
submitted and its location returned. -/
theorem c7_witness : createTransfer envOk tpEx = some "https://t1" :=
  (c7_createTransfer_request envOk tpEx).2 "https://t1" (by decide) rfl

/-- C8: when the public-token exchange throws (as with a consumed
single-use token), `exchangePublicToken` returns the failure signal with
the world untouched: zero new BankLinks, no later step runs. -/
theorem c8_exchange_failure_no_record (env : Env)
    (p : ExchangePublicTokenProps) (w : World)
    (h : env.itemPublicTokenExchange p.publicToken = none) :
    exchangePublicToken env p w = (none, w) := by
  simp [exchangePublicToken, h]

/-- C8 witness: the theorem at a concrete consumed-token run. -/
theorem c8_witness : exchangePublicToken envExchangeFail pEx w0 = (none, w0) :=
  c8_exchange_failure_no_record envExchangeFail pEx w0 rfl

/-- C9: the cited operations report every failure to their caller as the
absence signal: `getUserInfo` and `getBankByAccountId` return `none` both
when the database call throws and when no document matches, so a caller
cannot distinguish an internal error from genuine absence (the final
conjunct exhibits an error run and a no-match run with identical
results). -/
theorem c9_null_for_error_and_absence :
    (∀ users userId, getUserInfo false users userId = none) ∧
    (∀ users userId, (users.filter fun u => u.userId = userId) = [] →
      getUserInfo true users userId = none) ∧
    (∀ accountId w, getBankByAccountId false accountId w = none) ∧
    (∀ accountId w, (w.ledger.filter fun l => l.accountId = accountId) = [] →
      getBankByAccountId true accountId w = none) ∧
    getUserInfo false [{ docId := "d1", userId := "u1" }] "u1" =
      getUserInfo true [] "u1" := by
  refine ⟨fun users userId => rfl, ?_, fun accountId w => rfl, ?_, rfl⟩
  · intro users userId h
    simp [getUserInfo, h]
  · intro accountId w h
    simp [getBankByAccountId, h]

/-- C9 witness: the no-match run of `getUserInfo` yields the same absence
signal as an error run. -/
theorem c9_witness : getUserInfo true [] "u1" = none :=
  c9_null_for_error_and_absence.2.1 [] "u1" rfl

/-- C10: in every run of `exchangePublicToken` reaching the shareableId
step (all earlier steps succeeded, so the selected account id already
passed the non-empty guard), the derivation takes the `encryptId` branch
and never the `null` branch; consequently, under those hypotheses the
operation can only fail if `encryptId` itself returns the empty value. -/
theorem c10_shareableId_null_branch_unreachable (env : Env)
    (p : ExchangePublicTokenProps) (w : World) (accessToken itemId : String)
    (accounts : List PlaidAccount) (accountData : PlaidAccount)
    (processorToken url : String)
    (h1 : env.itemPublicTokenExchange p.publicToken = some (accessToken, itemId))
    (h2 : env.accountsGet accessToken = some accounts)
    (h3 : accounts.head? = some accountData)
    (h4 : accountData.account_id ≠ "")
    (h5 : env.processorTokenCreate accessToken accountData.account_id =
      some processorToken)
    (h6 : env.fundingSourcePost
        { customerId := p.user.dwollaCustomerId
          fundingSourceName := accountData.name
          plaidToken := processorToken
          links := env.onDemandAuthorization } = some (some url))
    (h7 : url ≠ "") :
    deriveShareableId accountData.account_id =
      some (encryptId accountData.account_id) ∧
    ((exchangePublicToken env p w).1 = none →
      encryptId accountData.account_id = "") := by
  constructor
  · simp [deriveShareableId, h4]
  · intro hfail
    rw [exchangePublicToken_shape env p w accessToken itemId accounts
      accountData processorToken url h1 h2 h3 h4 h5 h6 h7] at hfail
    simp at hfail

/-- C10 witness: the theorem at the spec scenario. -/
theorem c10_witness :
    deriveShareableId "a1" = some (encryptId "a1") ∧
    ((exchangePublicToken envOk pEx w0).1 = none → encryptId "a1" = "") :=
  c10_shareableId_null_branch_unreachable envOk pEx w0 "acc_1" "item_1"
    [{ account_id := "a1", name := "Checking" }]
    { account_id := "a1", name := "Checking" } "proc_1" "https://fs1"
    rfl rfl rfl (by decide) rfl rfl (by decide)
